import Mathlib

/-!
Shallow embedding of `scripts/local_cloudbuild.py`: the substitution engine
(`SUBSTITUTION_REGEX` + `sub_and_quote`), the command generator
(`generate_command`), the script assembler (`generate_script`), and the
configuration validation (`get_cloudbuild` / `get_step`), together with
theorems about the frozen specification claims.

Python dictionaries are modelled as association lists with unique keys,
Python sets as duplicate-free lists queried only for membership, and the
fallible paths (Python `raise ValueError`) as `Except Err`.
-/

namespace LocalCloudbuild

/-- The `{` character (written by code point to keep string escapes uniform). -/
def lbrace : Char := Char.ofNat 123

/-- The `}` character. -/
def rbrace : Char := Char.ofNat 125

/-- The single-quote character. -/
def squote : Char := Char.ofNat 39

/-- First character of a variable name: `[A-Z_]` in `SUBSTITUTION_REGEX`. -/
def isNameStart (c : Char) : Bool := ('A' ≤ c && c ≤ 'Z') || c = '_'

/-- Subsequent character of a variable name: `[A-Z0-9_]` in `SUBSTITUTION_REGEX`. -/
def isNameChar (c : Char) : Bool := isNameStart c || ('0' ≤ c && c ≤ '9')

/-- A substitution table (Python `dict` of str to str, keys unique). -/
abbrev Subs := List (String × String)

/-- The set of used substitution names (Python `set` of str; only membership
is ever observed, so a duplicate-free list suffices). -/
abbrev Used := List String

/-- Python `set.add`: insert a name if not already present. -/
def addUsed (used : Used) (n : String) : Used := if n ∈ used then used else n :: used

/-- The error conditions raised by the program (all `ValueError` in Python,
distinguished there by message text). -/
inductive Err where
  | undefinedVariable (name : String)
  | unusedSubstitution (names : List String)
  | noStepsDefined
  | typeMismatch (field : String)
deriving DecidableEq

/-- Embedding of `DEFAULT_SUBSTITUTIONS` from the source (lines 65-73). -/
def DEFAULT_SUBSTITUTIONS : Subs :=
  [("BRANCH_NAME", ""),
   ("BUILD_ID", "abcdef12-3456-7890-abcd-ef0123456789"),
   ("COMMIT_SHA", ""),
   ("PROJECT_ID", "dummy-project-id"),
   ("REPO_NAME", ""),
   ("REVISION_ID", ""),
   ("TAG_NAME", "")]

/-- Embedding of `DEBIAN_IMAGE` from the source. -/
def DEBIAN_IMAGE : String := "gcr.io/google-appengine/debian8"

/-- The inner callback `sub(match)` of `sub_and_quote`, applied to the
brace-stripped capture group: `$` maps to a literal `$`; otherwise the name
must be present in the table.  Python then executes
`substitutions_used.add(variable_name)` unconditionally, so the `$` token is
added to the used set as well. -/
def subMatch (substitutions : Subs) (variable_name : String)
    (substitutions_used : Used) : Except Err (String × Used) :=
  if variable_name = "$" then
    .ok ("$", addUsed substitutions_used "$")
  else
    match substitutions.lookup variable_name with
    | none => .error (.undefinedVariable variable_name)
    | some value => .ok (value, addUsed substitutions_used variable_name)

/-- Scanner state for the left-to-right scan of `re.sub(SUBSTITUTION_REGEX, sub, s)`:
`normal` is outside any candidate token; `dollar` has just consumed `$`;
`name acc` has consumed `$` plus the (nonempty) name characters `acc`;
`braceOpen` has consumed `$` and `{`; `braceName acc` has consumed `$`, `{`
and the (nonempty) name characters `acc`. -/
inductive ScanState where
  | normal
  | dollar
  | name (acc : List Char)
  | braceOpen
  | braceName (acc : List Char)
deriving DecidableEq

/-- One-pass implementation of `re.sub(SUBSTITUTION_REGEX, sub, s)`:
leftmost-first matching of `$NAME`, `${NAME}` or `$$`, with the maximal-munch
name `[A-Z_][A-Z0-9_]*`; any `$` not starting one of the three token forms is
left untouched as literal text.  When a candidate `${...` fails to complete,
the consumed characters (which contain no further `$`) are emitted literally
and scanning resumes at the failing character, exactly as the regex engine
finds no match inside that span. -/
def scanAux (substitutions : Subs) : List Char → ScanState → Used →
    Except Err (List Char × Used)
  | [], st, used =>
    match st with
    | .normal => .ok ([], used)
    | .dollar => .ok (['$'], used)
    | .name acc =>
      match subMatch substitutions (String.mk acc) used with
      | .ok (v, u) => .ok (v.data, u)
      | .error e => .error e
    | .braceOpen => .ok (['$', lbrace], used)
    | .braceName acc => .ok ('$' :: lbrace :: acc, used)
  | c :: cs, st, used =>
    match st with
    | .normal =>
      if c = '$' then scanAux substitutions cs .dollar used
      else
        match scanAux substitutions cs .normal used with
        | .ok (out, u) => .ok (c :: out, u)
        | .error e => .error e
    | .dollar =>
      if isNameStart c then scanAux substitutions cs (.name [c]) used
      else if c = '$' then
        match subMatch substitutions "$" used with
        | .ok (v, u) =>
          match scanAux substitutions cs .normal u with
          | .ok (out, u2) => .ok (v.data ++ out, u2)
          | .error e => .error e
        | .error e => .error e
      else if c = lbrace then scanAux substitutions cs .braceOpen used
      else
        match scanAux substitutions cs .normal used with
        | .ok (out, u) => .ok ('$' :: c :: out, u)
        | .error e => .error e
    | .name acc =>
      if isNameChar c then scanAux substitutions cs (.name (acc ++ [c])) used
      else
        match subMatch substitutions (String.mk acc) used with
        | .ok (v, u) =>
          if c = '$' then
            match scanAux substitutions cs .dollar u with
            | .ok (out, u2) => .ok (v.data ++ out, u2)
            | .error e => .error e
          else
            match scanAux substitutions cs .normal u with
            | .ok (out, u2) => .ok (v.data ++ c :: out, u2)
            | .error e => .error e
        | .error e => .error e
    | .braceOpen =>
      if isNameStart c then scanAux substitutions cs (.braceName [c]) used
      else if c = '$' then
        match scanAux substitutions cs .dollar used with
        | .ok (out, u) => .ok ('$' :: lbrace :: out, u)
        | .error e => .error e
      else
        match scanAux substitutions cs .normal used with
        | .ok (out, u) => .ok ('$' :: lbrace :: c :: out, u)
        | .error e => .error e
    | .braceName acc =>
      if isNameChar c then scanAux substitutions cs (.braceName (acc ++ [c])) used
      else if c = rbrace then
        match subMatch substitutions (String.mk acc) used with
        | .ok (v, u) =>
          match scanAux substitutions cs .normal u with
          | .ok (out, u2) => .ok (v.data ++ out, u2)
          | .error e => .error e
        | .error e => .error e
      else if c = '$' then
        match scanAux substitutions cs .dollar used with
        | .ok (out, u) => .ok ('$' :: lbrace :: (acc ++ out), u)
        | .error e => .error e
      else
        match scanAux substitutions cs .normal used with
        | .ok (out, u) => .ok ('$' :: lbrace :: (acc ++ c :: out), u)
        | .error e => .error e

/-- Embedding of `substituted_s = re.sub(SUBSTITUTION_REGEX, sub, s)` (source line 146). -/
def substitute (substitutions : Subs) (s : String) (substitutions_used : Used) :
    Except Err (String × Used) :=
  match scanAux substitutions s.data .normal substitutions_used with
  | .ok (out, u) => .ok (String.mk out, u)
  | .error e => .error e

/-- Characters the CPython `shlex.quote` leaves unquoted: ASCII letters and
digits plus underscore, at-sign, percent, plus, equals, colon, comma, dot,
slash and hyphen (the complement of the `_find_unsafe` class). -/
def isShlexSafe (c : Char) : Bool :=
  c.isAlpha || c.isDigit || c = '_' || c = '@' || c = '%' || c = '+' || c = '=' ||
    c = ':' || c = ',' || c = '.' || c = '/' || c = '-'

/-- The `s.replace(squote, squote-dquote-squote-dquote-squote)` step inside
`shlex.quote`, character by character. -/
def shlexReplaceQuote : List Char → List Char
  | [] => []
  | c :: cs =>
    if c = squote then squote :: '"' :: squote :: '"' :: squote :: shlexReplaceQuote cs
    else c :: shlexReplaceQuote cs

/-- CPython `shlex.quote`: empty becomes a pair of single quotes; strings of
safe characters pass through; anything else is wrapped in single quotes with
embedded single quotes escaped. -/
def shlexQuote (s : String) : String :=
  if s = "" then String.mk [squote, squote]
  else if s.data.all isShlexSafe then s
  else String.mk (squote :: (shlexReplaceQuote s.data ++ [squote]))

/-- Embedding of `sub_and_quote` (source lines 118-148): substitute, then shell-quote. -/
def sub_and_quote (s : String) (substitutions : Subs) (substitutions_used : Used) :
    Except Err (String × Used) :=
  match substitute substitutions s substitutions_used with
  | .ok (substituted_s, u) => .ok (shlexQuote substituted_s, u)
  | .error e => .error e

/-- The `Step` namedtuple: a single validated cloudbuild step. -/
structure Step where
  args : List String
  dir_ : String
  env : List String
  name : String
deriving DecidableEq

/-- The `CloudBuild` namedtuple: validated cloudbuild recipe plus flags. -/
structure CloudBuild where
  output_script : String
  run : Bool
  steps : List Step
  substitutions : Subs
deriving DecidableEq

/-- Two-argument `os.path.join` (posixpath): an absolute second component
replaces the first; otherwise the components are joined with `/` unless the
first already ends in `/` or is empty.  The `b.startswith(sep)` and
`path.endswith(sep)` tests of posixpath are expressed on the first and last
character, which is the same test for the one-character separator `/`. -/
def pathJoin (a b : String) : String :=
  if b.data.head? = some '/' then b
  else if a = "" || a.data.getLast? = some '/' then a ++ b
  else a ++ "/" ++ b

/-- Helper: `sub_and_quote` applied to each string of a list in order, threading the
used-name set (the `[sub_and_quote(arg, ...) for arg in step.args]` and
`for env in step.env` loops of `generate_command`). -/
def subAndQuoteList (ss : List String) (substitutions : Subs)
    (substitutions_used : Used) : Except Err (List String × Used) :=
  match ss with
  | [] => .ok ([], substitutions_used)
  | s :: rest =>
    match sub_and_quote s substitutions substitutions_used with
    | .ok (q, u) =>
      match subAndQuoteList rest substitutions u with
      | .ok (qs, u2) => .ok (q :: qs, u2)
      | .error e => .error e
    | .error e => .error e

/-- The `workdir` computation of `generate_command` (source lines 227-230):
`/workspace`, or `os.path.join` of `/workspace` with the resolved and quoted
`step.dir_` when that field is non-empty (Python truthiness). -/
def genWorkdir (step : Step) (substitutions : Subs) (substitutions_used : Used) :
    Except Err (String × Used) :=
  if step.dir_ = "" then .ok ("/workspace", substitutions_used)
  else
    match sub_and_quote step.dir_ substitutions substitutions_used with
    | .ok (qd, u) => .ok (pathJoin "/workspace" qd, u)
    | .error e => .error e

/-- Embedding of `generate_command` (source lines 208-243): the fixed-shape `docker run`
token list for one step.  Evaluation order follows the source: args, env,
name, then workdir. -/
def generate_command (step : Step) (substitutions : Subs)
    (substitutions_used : Used) : Except Err (List String × Used) :=
  match subAndQuoteList step.args substitutions substitutions_used with
  | .error e => .error e
  | .ok (quoted_args, u1) =>
    match subAndQuoteList step.env substitutions u1 with
    | .error e => .error e
    | .ok (env_vals, u2) =>
      let quoted_env := (env_vals.map (fun q => ["--env", q])).flatten
      match sub_and_quote step.name substitutions u2 with
      | .error e => .error e
      | .ok (quoted_name, u3) =>
        match genWorkdir step substitutions u3 with
        | .error e => .error e
        | .ok (workdir, u4) =>
          .ok (["docker",
                "run",
                "--volume",
                "/var/run/docker.sock:/var/run/docker.sock",
                "--volume",
                "/root/.docker:/root/.docker",
                "--volume",
                "$\x7bHOST_WORKSPACE\x7d:/workspace",
                "--workdir",
                workdir]
               ++ quoted_env ++ [quoted_name] ++ quoted_args, u4)

/-- The synthetic `cleanup_step` built inside `generate_script`
(source lines 257-262). -/
def cleanup_step : Step :=
  { args := ["rm", "-rf", "/workspace"]
    dir_ := ""
    env := []
    name := DEBIAN_IMAGE }

/-- The `docker_commands` list comprehension of `generate_script`: one
generated command per step, all sharing a single used-name accumulator. -/
def genCommands (steps : List Step) (substitutions : Subs)
    (substitutions_used : Used) : Except Err (List (List String) × Used) :=
  match steps with
  | [] => .ok ([], substitutions_used)
  | step :: rest =>
    match generate_command step substitutions substitutions_used with
    | .ok (cmd, u) =>
      match genCommands rest substitutions u with
      | .ok (cmds, u2) => .ok (cmd :: cmds, u2)
      | .error e => .error e
    | .error e => .error e

/-- Python `name[0] == '_'` on a substitution key.  (Python would raise
`IndexError` on an empty key; keys come from the `--substitutions` flag whose
names match `[A-Z_][A-Z0-9_]*` and are therefore non-empty.) -/
def headUnderscore (n : String) : Bool :=
  match n.data with
  | c :: _ => c = '_'
  | [] => false

/-- Python `sorted` on a list of strings: the unique ascending reordering
(for strings, any sorted permutation is the same list, so insertion sort
coincides with the stable sort used by Python). -/
def sortStrings (l : List String) : List String :=
  List.insertionSort (fun a b => a ≤ b) l

/-- The `user_subs_unused` list comprehension of `generate_script`
(source lines 270-271): keys of the table, in table order, that are not in
the used set and whose first character is `_`. -/
def userSubsUnused (substitutions : Subs) (subs_used : Used) : List String :=
  (substitutions.map Prod.fst).filter
    (fun n => !(subs_used.contains n) && headUnderscore n)

/-- Embedding of `BUILD_SCRIPT_TEMPLATE.format(cleanup_str=..., docker_str=...)`
(source lines 79-107), with the literal braces of the template written as
escapes. -/
def BUILD_SCRIPT_TEMPLATE (cleanup_str docker_str : String) : String :=
  "#!/bin/bash\n# This is a generated file.  Do not edit.\n\nset -euo pipefail\n\nSOURCE_DIR=.\n\n# Setup staging directory\nHOST_WORKSPACE=$(mktemp -d -t local_cloudbuild_XXXXXXXXXX)\nfunction cleanup \x7b\n    if [ \"$\x7bHOST_WORKSPACE\x7d\" != \x27/\x27 -a -d \"$\x7bHOST_WORKSPACE\x7d\" ]; then\n        # Expect a single error message about /workspace busy\n        " ++
  cleanup_str ++
  " 2>/dev/null || true\n        # Do not expect error messages here.  Display but ignore.\n        rmdir \"$\x7bHOST_WORKSPACE\x7d\" || true\n    fi\n\x7d\ntrap cleanup EXIT\n\n# Copy source to staging directory\necho \"Copying source to staging directory $\x7bHOST_WORKSPACE\x7d\"\nrsync -avzq --exclude=.git \"$\x7bSOURCE_DIR\x7d\" \"$\x7bHOST_WORKSPACE\x7d\"\n\n# Build commands\n" ++
  docker_str ++
  "\n# End of build commands\necho \"Build completed successfully\"\n"

/-- Embedding of `generate_script` (source lines 246-288): cleanup command with an empty
table and a fresh (discarded) used set, one command per step sharing one used
set, the unused-user-substitution check (all offending names, sorted), then
the template fill.  Each docker command is space-joined into one line
followed by a blank line, as in the source loop over `docker_commands`. -/
def generate_script (cloudbuild : CloudBuild) : Except Err String :=
  match generate_command cleanup_step [] [] with
  | .error e => .error e
  | .ok (cleanup_command, _) =>
    match genCommands cloudbuild.steps cloudbuild.substitutions [] with
    | .error e => .error e
    | .ok (docker_commands, subs_used) =>
      let user_subs_unused := userSubsUnused cloudbuild.substitutions subs_used
      if user_subs_unused ≠ [] then
        .error (.unusedSubstitution (sortStrings user_subs_unused))
      else
        let cleanup_str := String.intercalate " " cleanup_command
        let docker_lines := docker_commands.map
          (fun docker_command => String.intercalate " " docker_command ++ "\n\n")
        let docker_str := String.join docker_lines
        .ok (BUILD_SCRIPT_TEMPLATE cleanup_str docker_str)

/-- A deserialized YAML tree node, as handed to `get_cloudbuild`. -/
inductive Node where
  | str (s : String)
  | list (xs : List Node)
  | dict (entries : List (String × Node))
  | other

/-- Modelled from the spec: `validation_utils.get_field_value` (the module is
not under `src/`), specialised to extracting a list-valued field from a
mapping.  Per the validation contract of the spec, a missing optional field yields
the empty default of the expected type, a present field of the wrong type is
a validation error, and a present field of the right type is returned. -/
def get_field_value_list (entries : List (String × Node)) (key : String) :
    Except Err (List Node) :=
  match entries.lookup key with
  | none => .ok []
  | some (Node.list xs) => .ok xs
  | some _ => .error (.typeMismatch key)

/-- Modelled from the spec: `validation_utils.get_field_value` specialised to
extracting a string-valued field from a mapping (missing yields `""`). -/
def get_field_value_str (entries : List (String × Node)) (key : String) :
    Except Err String :=
  match entries.lookup key with
  | none => .ok ""
  | some (Node.str s) => .ok s
  | some _ => .error (.typeMismatch key)

/-- Modelled from the spec: `validation_utils.get_field_value` specialised to
extracting the string at each index of a list (the
`[get_field_value(raw, index, str) for index in range(len(raw))]`
comprehensions of `get_step`). -/
def get_str_items (xs : List Node) : Except Err (List String) :=
  match xs with
  | [] => .ok []
  | Node.str s :: rest =>
    match get_str_items rest with
    | .ok ss => .ok (s :: ss)
    | .error e => .error e
  | _ :: _ => .error (.typeMismatch "str")

/-- Embedding of `get_step` (source lines 179-205). -/
def get_step (raw_step : Node) : Except Err Step :=
  match raw_step with
  | .dict entries =>
    match get_field_value_list entries "args" with
    | .error e => .error e
    | .ok raw_args =>
      match get_str_items raw_args with
      | .error e => .error e
      | .ok args =>
        match get_field_value_str entries "dir" with
        | .error e => .error e
        | .ok dir_ =>
          match get_field_value_list entries "env" with
          | .error e => .error e
          | .ok raw_env =>
            match get_str_items raw_env with
            | .error e => .error e
            | .ok env =>
              match get_field_value_str entries "name" with
              | .error e => .error e
              | .ok name => .ok { args, dir_, env, name }
  | _ => .error (.typeMismatch "step")

/-- The command-line flags consumed by `get_cloudbuild` / `local_cloudbuild`. -/
structure Args where
  config : String
  output_script : String
  run : Bool
  substitutions : Subs

/-- Embedding of `get_cloudbuild` (source lines 151-176): the root must be a mapping, the
`steps` field must be a non-empty list, and each raw step is validated by
`get_step`.  The run-level substitutions are stored as given (no default
merging happens here, nor anywhere else in the program). -/
def get_cloudbuild (raw_config : Node) (args : Args) : Except Err CloudBuild :=
  match raw_config with
  | .dict entries =>
    match get_field_value_list entries "steps" with
    | .error e => .error e
    | .ok raw_steps =>
      if raw_steps.isEmpty then .error .noStepsDefined
      else
        match raw_steps.mapM get_step with
        | .error e => .error e
        | .ok steps =>
          .ok { output_script := args.output_script
                run := args.run
                steps := steps
                substitutions := args.substitutions }
  | _ => .error (.typeMismatch "root")

/-- Embedding of `local_cloudbuild` (source lines 307-328) up to the file write: the
returned string is exactly the contents handed to `write_script`; on every
error path the pipeline aborts before anything is written. -/
def local_cloudbuild (raw_config : Node) (args : Args) : Except Err String :=
  match get_cloudbuild raw_config args with
  | .error e => .error e
  | .ok cloudbuild =>
    match generate_script cloudbuild with
    | .error e => .error e
    | .ok contents => .ok contents

/-- The concrete token list produced by `generate_command` for the cleanup
step with an empty table. -/
def cleanupTokens : List String :=
  ["docker", "run", "--volume", "/var/run/docker.sock:/var/run/docker.sock",
   "--volume", "/root/.docker:/root/.docker", "--volume",
   "$\x7bHOST_WORKSPACE\x7d:/workspace", "--workdir", "/workspace",
   DEBIAN_IMAGE, "rm", "-rf", "/workspace"]

/-- Fixture: a minimal step that references no substitution variables. -/
def exampleStep : Step := { args := ["echo"], dir_ := "", env := [], name := "alpine" }

/-- Fixture: a build whose table defines the user variables `_FOO` and
`_BAR` (never referenced by `exampleStep`) and the non-user variable `BAZ`. -/
def exampleBuildUnused : CloudBuild :=
  { output_script := "out.sh", run := true, steps := [exampleStep],
    substitutions := [("_FOO", "x"), ("_BAR", "y"), ("BAZ", "z")] }

/-- Fixture: the command tokens generated for `exampleStep`. -/
def exampleTokens : List String :=
  ["docker", "run", "--volume", "/var/run/docker.sock:/var/run/docker.sock",
   "--volume", "/root/.docker:/root/.docker", "--volume",
   "$\x7bHOST_WORKSPACE\x7d:/workspace", "--workdir", "/workspace",
   "alpine", "echo"]

theorem cleanup_command_eval : generate_command cleanup_step [] [] = .ok (cleanupTokens, []) := rfl

theorem mem_addUsed (used : Used) (m n : String) :
    n ∈ addUsed used m ↔ (n = m ∨ n ∈ used) := by
  unfold addUsed
  split
  · rename_i hm
    constructor
    · exact Or.inr
    · rintro (rfl | h)
      · exact hm
      · exact h
  · exact List.mem_cons

theorem subAndQuoteList_length (ss : List String) (substitutions : Subs)
    (used : Used) (qs : List String) (u : Used)
    (h : subAndQuoteList ss substitutions used = .ok (qs, u)) :
    qs.length = ss.length := by
  induction ss generalizing used qs u with
  | nil =>
    simp only [subAndQuoteList, Except.ok.injEq, Prod.mk.injEq] at h
    simp [← h.1]
  | cons s rest ih =>
    simp only [subAndQuoteList] at h
    cases hq : sub_and_quote s substitutions used with
    | error e => rw [hq] at h; exact absurd h (by simp)
    | ok p =>
      obtain ⟨q, u1⟩ := p
      rw [hq] at h
      dsimp only at h
      cases hr : subAndQuoteList rest substitutions u1 with
      | error e => rw [hr] at h; exact absurd h (by simp)
      | ok p2 =>
        obtain ⟨qs2, u2⟩ := p2
        rw [hr] at h
        dsimp only at h
        simp only [Except.ok.injEq, Prod.mk.injEq] at h
        have := ih u1 qs2 u2 hr
        simp [← h.1, this]

theorem genCommands_length (steps : List Step) (substitutions : Subs)
    (used : Used) (cmds : List (List String)) (u : Used)
    (h : genCommands steps substitutions used = .ok (cmds, u)) :
    cmds.length = steps.length := by
  induction steps generalizing used cmds u with
  | nil =>
    simp only [genCommands, Except.ok.injEq, Prod.mk.injEq] at h
    simp [← h.1]
  | cons step rest ih =>
    simp only [genCommands] at h
    cases hq : generate_command step substitutions used with
    | error e => rw [hq] at h; exact absurd h (by simp)
    | ok p =>
      obtain ⟨cmd, u1⟩ := p
      rw [hq] at h
      dsimp only at h
      cases hr : genCommands rest substitutions u1 with
      | error e => rw [hr] at h; exact absurd h (by simp)
      | ok p2 =>
        obtain ⟨cmds2, u2⟩ := p2
        rw [hr] at h
        dsimp only at h
        simp only [Except.ok.injEq, Prod.mk.injEq] at h
        have := ih u1 cmds2 u2 hr
        simp [← h.1, this]

theorem mem_userSubsUnused (substitutions : Subs) (subs_used : Used) (n : String) :
    n ∈ userSubsUnused substitutions subs_used ↔
      (n ∈ substitutions.map Prod.fst ∧ n ∉ subs_used ∧ headUnderscore n = true) := by
  simp [userSubsUnused, List.mem_filter, and_assoc]

theorem mem_sortStrings (l : List String) (n : String) :
    n ∈ sortStrings l ↔ n ∈ l :=
  (List.perm_insertionSort _ l).mem_iff

theorem sorted_sortStrings (l : List String) :
    (sortStrings l).Sorted (fun a b => a ≤ b) :=
  List.sorted_insertionSort _ l

theorem generate_script_eval (cloudbuild : CloudBuild)
    (cmds : List (List String)) (subs_used : Used)
    (hgen : genCommands cloudbuild.steps cloudbuild.substitutions [] = .ok (cmds, subs_used)) :
    generate_script cloudbuild =
      if userSubsUnused cloudbuild.substitutions subs_used ≠ [] then
        .error (.unusedSubstitution (sortStrings (userSubsUnused cloudbuild.substitutions subs_used)))
      else
        .ok (BUILD_SCRIPT_TEMPLATE (String.intercalate " " cleanupTokens)
          (String.join (cmds.map
            (fun docker_command => String.intercalate " " docker_command ++ "\n\n")))) := by
  unfold generate_script
  rw [cleanup_command_eval, hgen]

/-- C1: the claim says resolution works against the merged table of builtin
defaults and user values, so that `$BUILD_ID` with an empty user mapping
succeeds with the builtin default.  The code never merges
`DEFAULT_SUBSTITUTIONS` into any table: `get_cloudbuild` stores the user
mapping unchanged and `generate_script` resolves against exactly that
mapping, so `$BUILD_ID` with an empty user mapping fails with
`UndefinedVariable "BUILD_ID"` even though `BUILD_ID` has a builtin default
value in the (dead) `DEFAULT_SUBSTITUTIONS` table. -/
theorem c1_defaults_never_merged :
    DEFAULT_SUBSTITUTIONS.lookup "BUILD_ID" = some "abcdef12-3456-7890-abcd-ef0123456789"
    ∧ sub_and_quote "$BUILD_ID" [] [] = .error (.undefinedVariable "BUILD_ID")
    ∧ get_cloudbuild
        (.dict [("steps", .list [.dict [("name", .str "alpine"),
                                        ("args", .list [.str "$BUILD_ID"])]])])
        { config := "cloudbuild.yaml", output_script := "out.sh", run := true,
          substitutions := [] }
      = .ok { output_script := "out.sh", run := true,
              steps := [{ args := ["$BUILD_ID"], dir_ := "", env := [], name := "alpine" }],
              substitutions := [] }
    ∧ generate_script
        { output_script := "out.sh", run := true,
          steps := [{ args := ["$BUILD_ID"], dir_ := "", env := [], name := "alpine" }],
          substitutions := [] }
      = .error (.undefinedVariable "BUILD_ID") := by
  refine ⟨rfl, rfl, rfl, rfl⟩

/-- C3 counterexample: resolving the string `$$` does not leave the
used-variable set unchanged.  The unconditional
`substitutions_used.add(variable_name)` in the source runs for the `$$` token
as well, adding the literal string `$`, so the set gains the element `$` rather
than staying empty. -/
theorem c3_counterexample :
    substitute [] "$$" [] = .ok ("$", ["$"]) ∧ (["$"] : Used) ≠ ([] : Used) :=
  ⟨rfl, by decide⟩

/-- C3 amended: for every input, table and prior used set, each `$$` token
resolves to a single literal `$`, and resolving it records the literal string
`$` — which is not a variable name and does not start with `_`, so it can
never affect the unused-substitution check — in the used-variable set;
resolving a string consisting only of `$$` yields exactly `$` with the used
set grown by `$` alone. -/
theorem c3_amended (substitutions : Subs) (used : Used) (cs : List Char) :
    scanAux substitutions ('$' :: '$' :: cs) .normal used =
      (match scanAux substitutions cs .normal (addUsed used "$") with
       | .ok (out, u) => .ok ('$' :: out, u)
       | .error e => .error e)
    ∧ substitute substitutions "$$" used = .ok ("$", addUsed used "$")
    ∧ headUnderscore "$" = false :=
  ⟨rfl, rfl, rfl⟩

/-- C6: the working-directory flag value is `/workspace` when the field
`dir` of the step is empty, and otherwise `os.path.join` of `/workspace` with the
resolved-and-quoted `dir`; in particular a step with `dir = "sub"` yields
`/workspace/sub` under any substitution table. -/
theorem c6_workdir (step : Step) (substitutions : Subs) (used : Used)
    (qd : String) (u : Used) :
    (step.dir_ = "" → genWorkdir step substitutions used = .ok ("/workspace", used))
    ∧ (step.dir_ ≠ "" → sub_and_quote step.dir_ substitutions used = .ok (qd, u) →
        genWorkdir step substitutions used = .ok (pathJoin "/workspace" qd, u))
    ∧ (∀ s2 : Step, s2.dir_ = "sub" →
        genWorkdir s2 substitutions used = .ok ("/workspace/sub", used)) := by
  refine ⟨?_, ?_, ?_⟩
  · intro h
    simp [genWorkdir, h]
  · intro h hq
    simp [genWorkdir, h, hq]
  · intro s2 h2
    simp only [genWorkdir, h2]
    rw [if_neg (by simp)]
    rfl

/-- C6 witness: a concrete step with `dir = "sub"` produces the
working-directory value `/workspace/sub`. -/
theorem c6_workdir_witness :
    genWorkdir { args := [], dir_ := "sub", env := [], name := "alpine" } [] []
      = .ok ("/workspace/sub", []) :=
  (c6_workdir { args := [], dir_ := "sub", env := [], name := "alpine" } [] [] "" []).2.2
    { args := [], dir_ := "sub", env := [], name := "alpine" } rfl

/-- C7: a configuration whose `steps` entry is missing or is the empty list
makes `get_cloudbuild` fail with `NoStepsDefined`, and the whole
`local_cloudbuild` pipeline then fails before producing any script contents
(so nothing is ever handed to `write_script`). -/
theorem c7_no_steps (entries : List (String × Node)) (args : Args)
    (h : entries.lookup "steps" = none ∨ entries.lookup "steps" = some (Node.list [])) :
    get_cloudbuild (.dict entries) args = .error .noStepsDefined
    ∧ local_cloudbuild (.dict entries) args = .error .noStepsDefined := by
  have hg : get_cloudbuild (.dict entries) args = .error .noStepsDefined := by
    rcases h with h | h <;>
      simp [get_cloudbuild, get_field_value_list, h]
  exact ⟨hg, by simp [local_cloudbuild, hg]⟩

/-- C7 witness: the concrete configuration `steps: []` fails with
`NoStepsDefined` and yields no script contents. -/
theorem c7_no_steps_witness :
    get_cloudbuild (.dict [("steps", .list [])])
      { config := "cloudbuild.yaml", output_script := "out.sh", run := true,
        substitutions := [] } = .error .noStepsDefined
    ∧ local_cloudbuild (.dict [("steps", .list [])])
      { config := "cloudbuild.yaml", output_script := "out.sh", run := true,
        substitutions := [] } = .error .noStepsDefined :=
  c7_no_steps [("steps", .list [])]
    { config := "cloudbuild.yaml", output_script := "out.sh", run := true,
      substitutions := [] } (Or.inr rfl)

theorem scanAux_braceName_chars (substitutions : Subs) (ds : List Char)
    (rest : List Char) (acc : List Char) (used : Used)
    (h : ∀ c ∈ ds, isNameChar c = true) :
    scanAux substitutions (ds ++ rest) (.braceName acc) used =
      scanAux substitutions rest (.braceName (acc ++ ds)) used := by
  induction ds generalizing acc with
  | nil => simp
  | cons d ds ih =>
    have hd : isNameChar d = true := h d (List.mem_cons_self d ds)
    have hrest : ∀ c ∈ ds, isNameChar c = true :=
      fun c hc => h c (List.mem_cons_of_mem d hc)
    simp only [List.cons_append, scanAux, hd, if_true, List.append_eq]
    rw [ih (acc ++ [d]) hrest]
    simp

/-- C8: every occurrence of `$` not starting one of the three token forms is
left untouched as literal text, scanning resumes at the first character that
broke the match, and nothing fails or is recorded.  The conjuncts cover the
whole family: a `$` before a character that can begin none of the forms; a
trailing lone `$`; a trailing `$` followed by an open brace; an open brace
followed by a character that cannot begin a name (including a fresh `$`); an
unterminated brace-and-name reaching the end of the input; and a
brace-and-name interrupted by a character that neither extends the name nor
closes the brace (including a fresh `$`).  The last four conjuncts give the
particular instances for the strings consisting of a dollar before `x`, an
open brace before `x`, a lone open brace, and an open brace before `A`. -/
theorem c8_unmatched_dollar_literal (substitutions : Subs) (used : Used) :
    (∀ c cs, isNameStart c = false → c ≠ '$' → c ≠ lbrace →
      scanAux substitutions ('$' :: c :: cs) .normal used =
        (match scanAux substitutions cs .normal used with
         | .ok (out, u) => .ok ('$' :: c :: out, u)
         | .error e => .error e))
    ∧ scanAux substitutions ['$'] .normal used = .ok (['$'], used)
    ∧ scanAux substitutions ['$', lbrace] .normal used = .ok (['$', lbrace], used)
    ∧ (∀ c cs, isNameStart c = false → c ≠ '$' →
        scanAux substitutions ('$' :: lbrace :: c :: cs) .normal used =
          (match scanAux substitutions cs .normal used with
           | .ok (out, u) => .ok ('$' :: lbrace :: c :: out, u)
           | .error e => .error e))
    ∧ (∀ cs,
        scanAux substitutions ('$' :: lbrace :: '$' :: cs) .normal used =
          (match scanAux substitutions ('$' :: cs) .normal used with
           | .ok (out, u) => .ok ('$' :: lbrace :: out, u)
           | .error e => .error e))
    ∧ (∀ c cs, isNameStart c = true → (∀ d ∈ cs, isNameChar d = true) →
        scanAux substitutions ('$' :: lbrace :: c :: cs) .normal used =
          .ok ('$' :: lbrace :: c :: cs, used))
    ∧ (∀ c cs d rest, isNameStart c = true → (∀ x ∈ cs, isNameChar x = true) →
        isNameChar d = false → d ≠ rbrace → d ≠ '$' →
        scanAux substitutions ('$' :: lbrace :: c :: (cs ++ d :: rest)) .normal used =
          (match scanAux substitutions rest .normal used with
           | .ok (out, u) => .ok ('$' :: lbrace :: c :: (cs ++ d :: out), u)
           | .error e => .error e))
    ∧ (∀ c cs rest, isNameStart c = true → (∀ x ∈ cs, isNameChar x = true) →
        scanAux substitutions ('$' :: lbrace :: c :: (cs ++ '$' :: rest)) .normal used =
          (match scanAux substitutions ('$' :: rest) .normal used with
           | .ok (out, u) => .ok ('$' :: lbrace :: c :: (cs ++ out), u)
           | .error e => .error e))
    ∧ substitute substitutions "$x" used = .ok ("$x", used)
    ∧ substitute substitutions "$\x7bx" used = .ok ("$\x7bx", used)
    ∧ substitute substitutions "$\x7b" used = .ok ("$\x7b", used)
    ∧ substitute substitutions "$\x7bA" used = .ok ("$\x7bA", used) := by
  refine ⟨?_, rfl, rfl, ?_, ?_, ?_, ?_, ?_, rfl, rfl, rfl, rfl⟩
  · intro c cs h1 h2 h3
    simp [scanAux, h1, h2, h3]
  · intro c cs h1 h2
    show scanAux substitutions (c :: cs) .braceOpen used = _
    simp [scanAux, h1, h2]
  · intro cs
    rfl
  · intro c cs hc hcs
    show scanAux substitutions (c :: cs) .braceOpen used = _
    simp only [scanAux, hc, if_true]
    have hstep := scanAux_braceName_chars substitutions cs [] [c] used hcs
    rw [List.append_nil] at hstep
    rw [hstep]
    rfl
  · intro c cs d rest hc hcs hd hdb hdd
    show scanAux substitutions (c :: (cs ++ d :: rest)) .braceOpen used = _
    simp only [scanAux, hc, if_true]
    have hstep := scanAux_braceName_chars substitutions cs (d :: rest) [c] used hcs
    rw [hstep]
    simp [scanAux, hd, hdb, hdd]
  · intro c cs rest hc hcs
    show scanAux substitutions (c :: (cs ++ '$' :: rest)) .braceOpen used = _
    simp only [scanAux, hc, if_true]
    have hstep := scanAux_braceName_chars substitutions cs ('$' :: rest) [c] used hcs
    rw [hstep]
    rfl

/-- C8 witness: the concrete strings made of a dollar before `x`, an open
brace before `x`, a lone open brace, and an open brace before `A` are all
preserved verbatim with no used-variable recorded and no error, and the
general conjuncts instantiate at those inputs. -/
theorem c8_unmatched_dollar_literal_witness :
    substitute [] "$x" [] = .ok ("$x", [])
    ∧ substitute [] "$\x7bx" [] = .ok ("$\x7bx", [])
    ∧ substitute [] "$\x7b" [] = .ok ("$\x7b", [])
    ∧ substitute [] "$\x7bA" [] = .ok ("$\x7bA", [])
    ∧ scanAux [] ['$', 'x'] .normal [] = .ok (['$', 'x'], [])
    ∧ scanAux [] ['$', lbrace, 'x'] .normal [] = .ok (['$', lbrace, 'x'], [])
    ∧ scanAux [] ['$', lbrace, 'A'] .normal [] = .ok (['$', lbrace, 'A'], []) := by
  have h := c8_unmatched_dollar_literal [] []
  refine ⟨h.2.2.2.2.2.2.2.2.1, h.2.2.2.2.2.2.2.2.2.1, h.2.2.2.2.2.2.2.2.2.2.1,
    h.2.2.2.2.2.2.2.2.2.2.2, ?_, ?_, ?_⟩
  · exact (h.1 'x' [] (by decide) (by decide) (by decide)).trans rfl
  · exact (h.2.2.2.1 'x' [] (by decide) (by decide)).trans rfl
  · exact h.2.2.2.2.2.1 'A' [] (by decide) (by simp)

/-- C10: when the `dir` field of a step resolves and quotes to a string beginning with
`/`, `os.path.join` discards the `/workspace` prefix and the
working-directory flag value is that absolute string alone. -/
theorem c10_absolute_dir (step : Step) (substitutions : Subs) (used : Used)
    (qd : String) (u : Used)
    (hd : step.dir_ ≠ "")
    (hq : sub_and_quote step.dir_ substitutions used = .ok (qd, u))
    (habs : qd.data.head? = some '/') :
    genWorkdir step substitutions used = .ok (qd, u)
    ∧ pathJoin "/workspace" qd = qd := by
  have hj : pathJoin "/workspace" qd = qd := by simp [pathJoin, habs]
  refine ⟨?_, hj⟩
  simp [genWorkdir, hd, hq, hj]

/-- C10 witness: a step with `dir = "/abs"` gets working directory `/abs`,
outside `/workspace`. -/
theorem c10_absolute_dir_witness :
    genWorkdir { args := [], dir_ := "/abs", env := [], name := "alpine" } [] []
      = .ok ("/abs", [])
    ∧ pathJoin "/workspace" "/abs" = "/abs" :=
  c10_absolute_dir { args := [], dir_ := "/abs", env := [], name := "alpine" }
    [] [] "/abs" [] (by decide) rfl (by decide)

theorem scanAux_name_chars (substitutions : Subs) (ds : List Char)
    (rest : List Char) (acc : List Char) (used : Used)
    (h : ∀ c ∈ ds, isNameChar c = true) :
    scanAux substitutions (ds ++ rest) (.name acc) used =
      scanAux substitutions rest (.name (acc ++ ds)) used := by
  induction ds generalizing acc with
  | nil => simp
  | cons d ds ih =>
    have hd : isNameChar d = true := h d (List.mem_cons_self d ds)
    have hrest : ∀ c ∈ ds, isNameChar c = true :=
      fun c hc => h c (List.mem_cons_of_mem d hc)
    simp only [List.cons_append, scanAux, hd, if_true, List.append_eq]
    rw [ih (acc ++ [d]) hrest]
    simp

/-- C2: if generating the per-step commands succeeds with used-name set
`subs_used`, then whenever one or more table keys starting with `_` are
absent from `subs_used`, script assembly fails with `UnusedSubstitution`
carrying the sorted list of exactly those keys (all of them, each starting
with `_`); and when no such key exists, assembly succeeds, so keys not
starting with `_` never trigger this failure. -/
theorem c2_unused_user_substitutions (cloudbuild : CloudBuild)
    (cmds : List (List String)) (subs_used : Used)
    (hgen : genCommands cloudbuild.steps cloudbuild.substitutions [] = .ok (cmds, subs_used)) :
    (userSubsUnused cloudbuild.substitutions subs_used ≠ [] →
      generate_script cloudbuild =
        .error (.unusedSubstitution (sortStrings (userSubsUnused cloudbuild.substitutions subs_used)))
      ∧ (∀ n, n ∈ sortStrings (userSubsUnused cloudbuild.substitutions subs_used) ↔
          (n ∈ cloudbuild.substitutions.map Prod.fst ∧ n ∉ subs_used ∧ headUnderscore n = true))
      ∧ (sortStrings (userSubsUnused cloudbuild.substitutions subs_used)).Sorted (fun a b => a ≤ b))
    ∧ (userSubsUnused cloudbuild.substitutions subs_used = [] →
        generate_script cloudbuild =
          .ok (BUILD_SCRIPT_TEMPLATE (String.intercalate " " cleanupTokens)
            (String.join (cmds.map
              (fun docker_command => String.intercalate " " docker_command ++ "\n\n"))))) := by
  have hs := generate_script_eval cloudbuild cmds subs_used hgen
  constructor
  · intro hne
    rw [hs, if_pos hne]
    exact ⟨rfl,
      fun n => (mem_sortStrings _ n).trans (mem_userSubsUnused _ _ n),
      sorted_sortStrings _⟩
  · intro heq
    rw [hs, if_neg (fun hcon => hcon heq)]

/-- C2 witness: a table defining `_FOO` and `_BAR` with a step referencing
neither makes assembly fail with `UnusedSubstitution ["_BAR", "_FOO"]`:
both offending names, and only those, sorted. -/
theorem c2_unused_user_substitutions_witness :
    generate_script exampleBuildUnused = .error (.unusedSubstitution ["_BAR", "_FOO"]) := by
  have h := (c2_unused_user_substitutions exampleBuildUnused [exampleTokens] []
    rfl).1 (by decide)
  refine h.1.trans ?_
  have h1 : userSubsUnused exampleBuildUnused.substitutions [] = ["_FOO", "_BAR"] := by
    decide
  rw [h1]
  have hle : ¬(("_FOO" : String) ≤ "_BAR") := by
    rw [String.le_iff_toList_le]
    decide
  have hsort : sortStrings ["_FOO", "_BAR"] = ["_BAR", "_FOO"] := by
    simp [sortStrings, List.insertionSort, List.orderedInsert, hle]
  rw [hsort]

/-- C4: for a model with at least one step whose commands all generate and
whose unused-substitution check passes, the assembled script is exactly the
fixed template filled with one space-joined cleanup command line and the
concatenation, in step order, of one space-joined command line (followed by
a blank line) per generated step command, of which there are exactly as many
as steps; the cleanup command is generated from the synthetic step
`rm -rf /workspace` in the fixed utility image with no working-directory
override and no environment, against the empty substitution table and a
fresh used set. -/
theorem c4_one_line_per_step_plus_cleanup (cloudbuild : CloudBuild)
    (cmds : List (List String)) (subs_used : Used)
    (_hne : cloudbuild.steps ≠ [])
    (hgen : genCommands cloudbuild.steps cloudbuild.substitutions [] = .ok (cmds, subs_used))
    (hunused : userSubsUnused cloudbuild.substitutions subs_used = []) :
    generate_script cloudbuild =
      .ok (BUILD_SCRIPT_TEMPLATE (String.intercalate " " cleanupTokens)
        (String.join (cmds.map
          (fun docker_command => String.intercalate " " docker_command ++ "\n\n"))))
    ∧ cmds.length = cloudbuild.steps.length
    ∧ generate_command cleanup_step [] [] = .ok (cleanupTokens, [])
    ∧ cleanup_step = { args := ["rm", "-rf", "/workspace"], dir_ := "",
                       env := [], name := DEBIAN_IMAGE } := by
  refine ⟨?_, genCommands_length _ _ _ _ _ hgen, cleanup_command_eval, rfl⟩
  rw [generate_script_eval cloudbuild cmds subs_used hgen,
      if_neg (fun hcon => hcon hunused)]

/-- C4 witness: a one-step build with an empty table assembles to the
template with one step line and the cleanup line. -/
theorem c4_one_line_per_step_plus_cleanup_witness :
    generate_script
      { output_script := "out.sh", run := true,
        steps := [{ args := ["echo", "hi"], dir_ := "", env := [], name := "alpine" }],
        substitutions := [] }
      = .ok (BUILD_SCRIPT_TEMPLATE (String.intercalate " " cleanupTokens)
          (String.join ([["docker", "run", "--volume",
            "/var/run/docker.sock:/var/run/docker.sock",
            "--volume", "/root/.docker:/root/.docker", "--volume",
            "$\x7bHOST_WORKSPACE\x7d:/workspace", "--workdir", "/workspace",
            "alpine", "echo", "hi"]].map
            (fun docker_command => String.intercalate " " docker_command ++ "\n\n")))) :=
  (c4_one_line_per_step_plus_cleanup
    { output_script := "out.sh", run := true,
      steps := [{ args := ["echo", "hi"], dir_ := "", env := [], name := "alpine" }],
      substitutions := [] }
    [["docker", "run", "--volume", "/var/run/docker.sock:/var/run/docker.sock",
      "--volume", "/root/.docker:/root/.docker", "--volume",
      "$\x7bHOST_WORKSPACE\x7d:/workspace", "--workdir", "/workspace",
      "alpine", "echo", "hi"]]
    [] (by decide) rfl rfl).1

/-- C5: the generated command token list has the exact fixed shape and
order: `docker`, `run`, the two infrastructure bind-mounts passed through as
fixed literal strings, the workspace mount whose source is the literal text
of a shell `HOST_WORKSPACE` reference (independent of the substitution
table), the working-directory flag and its value, one `--env` flag followed
by the resolved-and-quoted value per entry of the env list of the step in order,
the resolved-and-quoted image name, then the resolved-and-quoted arguments
in order. -/
theorem c5_fixed_command_shape (step : Step) (substitutions : Subs)
    (used u1 u2 u3 u4 : Used) (quoted_args env_vals : List String)
    (quoted_name workdir : String)
    (ha : subAndQuoteList step.args substitutions used = .ok (quoted_args, u1))
    (he : subAndQuoteList step.env substitutions u1 = .ok (env_vals, u2))
    (hn : sub_and_quote step.name substitutions u2 = .ok (quoted_name, u3))
    (hw : genWorkdir step substitutions u3 = .ok (workdir, u4)) :
    generate_command step substitutions used =
      .ok (["docker", "run", "--volume", "/var/run/docker.sock:/var/run/docker.sock",
            "--volume", "/root/.docker:/root/.docker", "--volume",
            "$\x7bHOST_WORKSPACE\x7d:/workspace", "--workdir", workdir]
           ++ (env_vals.map (fun q => ["--env", q])).flatten
           ++ [quoted_name] ++ quoted_args, u4)
    ∧ env_vals.length = step.env.length
    ∧ quoted_args.length = step.args.length := by
  refine ⟨?_, subAndQuoteList_length _ _ _ _ _ he, subAndQuoteList_length _ _ _ _ _ ha⟩
  unfold generate_command
  rw [ha]
  dsimp only
  rw [he]
  dsimp only
  rw [hn]
  dsimp only
  rw [hw]

/-- C5 witness: a concrete step with one env entry, a name and two args
produces exactly the fixed-shape token list. -/
theorem c5_fixed_command_shape_witness :
    generate_command
      { args := ["echo", "a b"], dir_ := "", env := ["K=V"], name := "alpine" }
      [] []
      = .ok (["docker", "run", "--volume", "/var/run/docker.sock:/var/run/docker.sock",
              "--volume", "/root/.docker:/root/.docker", "--volume",
              "$\x7bHOST_WORKSPACE\x7d:/workspace", "--workdir", "/workspace"]
             ++ (["K=V"].map (fun q => ["--env", q])).flatten
             ++ ["alpine"] ++ ["echo", "\x27a b\x27"], []) :=
  (c5_fixed_command_shape
    { args := ["echo", "a b"], dir_ := "", env := ["K=V"], name := "alpine" }
    [] [] [] [] [] [] ["echo", "\x27a b\x27"] ["K=V"] "alpine" "/workspace"
    rfl rfl rfl rfl).1

/-- C9: substitution is single-pass: resolving `$NAME` for a table entry
mapping NAME to any value `v` yields `v` inserted verbatim (before quoting),
even when `v` itself contains `$OTHER`-style tokens — no lookup of names
inside `v` happens, so no `UndefinedVariable` can arise from them — and the
used-variable set grows by NAME alone. -/
theorem c9_single_pass (substitutions : Subs) (name v : String) (used : Used)
    (c : Char) (cs : List Char)
    (hdata : name.data = c :: cs)
    (hc : isNameStart c = true)
    (hcs : ∀ d ∈ cs, isNameChar d = true)
    (hv : substitutions.lookup name = some v) :
    substitute substitutions ("$" ++ name) used = .ok (v, addUsed used name)
    ∧ (∀ n, n ∈ addUsed used name ↔ (n = name ∨ n ∈ used)) := by
  have hne : name ≠ "$" := by
    intro he
    rw [he] at hdata
    have h2 : ['$'] = c :: cs := hdata
    have h3 : c = '$' := List.head_eq_of_cons_eq h2.symm
    rw [h3] at hc
    exact absurd hc (by decide)
  refine ⟨?_, fun n => mem_addUsed used name n⟩
  have hmk : String.mk (c :: cs) = name := by rw [← hdata]
  have hdollar : ("$" ++ name).data = '$' :: c :: cs := by
    show '$' :: name.data = '$' :: c :: cs
    rw [hdata]
  unfold substitute
  rw [hdollar]
  simp only [scanAux, if_pos rfl]
  simp only [scanAux, hc, if_true]
  have hstep := scanAux_name_chars substitutions cs [] [c] used hcs
  rw [List.append_nil] at hstep
  rw [hstep]
  simp only [scanAux, List.singleton_append]
  rw [hmk]
  unfold subMatch
  rw [if_neg hne, hv]

/-- C9 witness: with the table mapping `_A` to the value `$OTHER`, resolving
`$_A` succeeds with the value inserted verbatim, `OTHER` is not looked up or
recorded, and the used set is exactly `{_A}`. -/
theorem c9_single_pass_witness :
    substitute [("_A", "$OTHER")] "$_A" [] = .ok ("$OTHER", addUsed [] "_A")
    ∧ (addUsed ([] : Used) "_A" = ["_A"])
    ∧ ("OTHER" ∉ (["_A"] : Used)) :=
  ⟨(c9_single_pass [("_A", "$OTHER")] "_A" "$OTHER" [] '_' ['A']
      rfl (by decide) (by decide) rfl).1,
   by decide, by decide⟩

end LocalCloudbuild
